import Mathlib

/-!
Shallow embedding of the three in-memory CRUD microservices:
  * `src/app.py`                — employee service (list / get / create only),
  * `src/product_service/app.py`— product service (full CRUD with partial update),
  * `src/calculate.py`          — generic item service over a Python dict.

Python floats carrying prices never meet rounding in the specified behaviour
(only comparisons to 0 and equality), so prices are embedded as rationals.
Timestamps (`datetime.utcnow().isoformat()`) are embedded as opaque strings
supplied to each operation as a `now` argument.  The HTTP layer's pydantic
request parsing is embedded as an explicit validation step in front of the
handler (`create_product_api`, `update_product_api`); the handler bodies are
translated statement by statement from the source.  A handler that raises
`HTTPException` is embedded as returning `Except.error`; since the embedding
is state-passing, an error result carries no successor state, which is
exactly the source's "no mutation performed on failure".
-/

deriving instance DecidableEq for Except

namespace Micro

/-- ASCII lowercasing of one character, the effect of Python's
`str.lower()` on the ASCII names these services store. -/
def lowerChar (c : Char) : Char :=
  if 65 ≤ c.toNat ∧ c.toNat ≤ 90 then Char.ofNat (c.toNat + 32) else c

/-- `s.lower()`: lowercase every character. -/
def sLower (s : String) : String := ⟨s.data.map lowerChar⟩

/-- Error taxonomy of the services: pydantic 422/400 validation failures,
404 not-found, and the 400 duplicate-key responses raised by the create
handlers. -/
inductive Err : Type
  | validationError : Err
  | notFound : Err
  | conflict : Err
deriving DecidableEq, Repr

/-! ### Employee service (`src/app.py`) -/

/-- `Employee` pydantic model: id plus the four domain fields and
`created_at`. -/
structure Employee : Type where
  id : Nat
  name : String
  email : String
  department : String
  pos : String
  created_at : String
deriving DecidableEq, Repr

/-- `EmployeeCreate` request body (id and created_at are not caller
supplied). -/
structure EmployeeCreate : Type where
  name : String
  email : String
  department : String
  pos : String
deriving DecidableEq, Repr

/-- The module-level state of the employee service: `employees_db` and the
`next_employee_id` counter. -/
structure EmployeeState : Type where
  db : List Employee
  next_employee_id : Nat
deriving DecidableEq, Repr

/-- `create_employee` handler: scan `employees_db` for an exact email match,
raise 400 on a duplicate, otherwise append a record carrying
`next_employee_id` and increment the counter. -/
def create_employee (st : EmployeeState) (c : EmployeeCreate) (now : String) :
    Except Err (Employee × EmployeeState) :=
  if st.db.any (fun e => e.email == c.email) then
    .error .conflict
  else
    let e : Employee := ⟨st.next_employee_id, c.name, c.email, c.department, c.pos, now⟩
    .ok (e, ⟨st.db ++ [e], st.next_employee_id + 1⟩)

/-- Modelled from the spec: pydantic's `EmailStr` well-formedness check on
the employee `email` field ("email well-formed where applicable").  The
field is declared `email: EmailStr` in `src/app.py`, but the validating
code is the pydantic/email-validator library, which is not under `src/`.
Modelled as: exactly one `@` separating a non-empty local part from a
domain that is non-empty, contains a dot, and neither starts nor ends
with one.  No other `EmployeeBase` field carries a constraint (plain
`str` accepts the empty string). -/
def emailWellFormed (s : String) : Bool :=
  match s.data.splitOn '@' with
  | [loc, dom] =>
    !loc.isEmpty && !dom.isEmpty && dom.contains '.' &&
      dom.head? != some '.' && dom.getLast? != some '.'
  | _ => false

/-- `POST /employee` as seen by the caller: pydantic parses (and possibly
rejects) the body before the handler runs; the only field-level
constraint of `EmployeeBase` is the `EmailStr` one. -/
def create_employee_api (st : EmployeeState) (c : EmployeeCreate) (now : String) :
    Except Err (Employee × EmployeeState) :=
  if emailWellFormed c.email then create_employee st c now else .error .validationError

/-! ### Product service (`src/product_service/app.py`)

A stored `Product` is a pydantic object; `product.copy(update=...)` in
`update_product` bypasses the model's validators, so an explicitly supplied
`null` in the update body is written into the store.  The stored fields are
therefore embedded as `Option`s (`none` = Python `None`); records built by
`create_product` always carry `some` values. -/

/-- A record held in `products_db`.  Field values are `Option`s because
`copy(update=...)` can store `None` in any domain field. -/
structure Product : Type where
  id : Nat
  name : Option String
  descr : Option String
  price : Option ℚ
  category : Option String
  stock_quantity : Option Int
  created_at : String
  updated_at : String
deriving DecidableEq, Repr

/-- `ProductCreate` request body (all five domain fields required). -/
structure ProductCreate : Type where
  name : String
  descr : String
  price : ℚ
  category : String
  stock_quantity : Int
deriving DecidableEq, Repr

/-- Pydantic field validation for `ProductCreate`: `price = Field(gt=0)`,
`stock_quantity = Field(ge=0)`.  Plain `str` fields carry no constraint (an
empty string is accepted). -/
def productCreateValid (c : ProductCreate) : Bool :=
  decide (0 < c.price) && decide (0 ≤ c.stock_quantity)

/-- `ProductUpdate` request body.  The outer `Option` is pydantic's
set/unset distinction (`exclude_unset`); the inner `Option` is the value,
which may itself be an explicit `null`. -/
structure ProductUpdate : Type where
  name : Option (Option String)
  descr : Option (Option String)
  price : Option (Option ℚ)
  category : Option (Option String)
  stock_quantity : Option (Option Int)
deriving DecidableEq, Repr

/-- Pydantic field validation for `ProductUpdate`: the `gt=0` / `ge=0`
constraints apply only when a numeric field is explicitly set to a non-null
value. -/
def productUpdateValid (u : ProductUpdate) : Bool :=
  (match u.price with
   | some (some q) => decide (0 < q)
   | _ => true) &&
  (match u.stock_quantity with
   | some (some s) => decide (0 ≤ s)
   | _ => true)

/-- `product_data.dict(exclude_unset=True)` is empty iff no field of the
update body was explicitly set (a field set to `null` still counts as
set). -/
def ProductUpdate.isEmptyDict (u : ProductUpdate) : Bool :=
  u.name.isNone && u.descr.isNone && u.price.isNone &&
    u.category.isNone && u.stock_quantity.isNone

/-- The module-level state of the product service: `products_db` and the
`next_product_id` counter. -/
structure ProductState : Type where
  db : List Product
  next_product_id : Nat
deriving DecidableEq, Repr

/-- The duplicate scan's comparison
`existing_product.name.lower() == product_data.name.lower()`.
A stored record built by `create_product` always has `some` name; the
`none` branch is unreachable on schema-conforming stores (in Python a
`None` name would raise `AttributeError` instead). -/
def nameMatches (pn : Option String) (n : String) : Bool :=
  match pn with
  | some s => sLower s == sLower n
  | none => false

/-- `create_product` handler body: scan `products_db` for a
case-insensitive name match, raise 400 on a duplicate, otherwise append a
record carrying `next_product_id` and increment the counter. -/
def create_product (st : ProductState) (c : ProductCreate) (now : String) :
    Except Err (Product × ProductState) :=
  if st.db.any (fun p => nameMatches p.name c.name) then
    .error .conflict
  else
    let p : Product := ⟨st.next_product_id, some c.name, some c.descr, some c.price,
      some c.category, some c.stock_quantity, now, now⟩
    .ok (p, ⟨st.db ++ [p], st.next_product_id + 1⟩)

/-- `POST /products` as seen by the caller: pydantic parses (and possibly
rejects) the body before the handler runs. -/
def create_product_api (st : ProductState) (c : ProductCreate) (now : String) :
    Except Err (Product × ProductState) :=
  if productCreateValid c then create_product st c now else .error .validationError

/-- `product.copy(update={**update_data, "updated_at": ...})`: every
explicitly set field (including an explicit `null`) replaces the stored
value, every unset field is kept, `updated_at` is refreshed, and no
validator runs. -/
def applyUpdate (p : Product) (u : ProductUpdate) (now : String) : Product :=
  { p with
    name := u.name.getD p.name
    descr := u.descr.getD p.descr
    price := u.price.getD p.price
    category := u.category.getD p.category
    stock_quantity := u.stock_quantity.getD p.stock_quantity
    updated_at := now }

/-- The `for idx, product in enumerate(products_db)` loop of
`update_product`: at the first record whose id matches, reject an empty
`update_data` with 400, otherwise replace `products_db[idx]` by the merged
record; if the loop finishes, 404. -/
def update_db : List Product → Nat → ProductUpdate → String →
    Except Err (Product × List Product)
  | [], _, _, _ => .error .notFound
  | p :: rest, pid, u, now =>
    if p.id == pid then
      if u.isEmptyDict then .error .validationError
      else
        let p' := applyUpdate p u now
        .ok (p', p' :: rest)
    else
      match update_db rest pid u now with
      | .error e => .error e
      | .ok (q, rest') => .ok (q, p :: rest')

/-- `update_product` handler: the loop above over the current store; the
id counter is untouched. -/
def update_product (st : ProductState) (pid : Nat) (u : ProductUpdate) (now : String) :
    Except Err (Product × ProductState) :=
  match update_db st.db pid u now with
  | .error e => .error e
  | .ok (q, db') => .ok (q, ⟨db', st.next_product_id⟩)

/-- `PUT /products/{id}` as seen by the caller: pydantic validates the
body before the handler runs. -/
def update_product_api (st : ProductState) (pid : Nat) (u : ProductUpdate) (now : String) :
    Except Err (Product × ProductState) :=
  if productUpdateValid u then update_product st pid u now else .error .validationError

/-- The `for idx, product in enumerate(products_db)` loop of
`delete_product`: `pop` the first record whose id matches, else 404. -/
def delete_db : List Product → Nat → Except Err (List Product)
  | [], _ => .error .notFound
  | p :: rest, pid =>
    if p.id == pid then .ok rest
    else
      match delete_db rest pid with
      | .error e => .error e
      | .ok rest' => .ok (p :: rest')

/-- `delete_product` handler. -/
def delete_product (st : ProductState) (pid : Nat) : Except Err ProductState :=
  match delete_db st.db pid with
  | .error e => .error e
  | .ok db' => .ok ⟨db', st.next_product_id⟩

/-- The declared `Product` schema (`ProductBase` plus id/timestamps): all
domain fields present (non-null), `price > 0`, `stock_quantity ≥ 0`. -/
def Product.schemaOk (p : Product) : Bool :=
  p.name.isSome && p.descr.isSome &&
  (match p.price with
   | some q => decide (0 < q)
   | none => false) &&
  p.category.isSome &&
  (match p.stock_quantity with
   | some s => decide (0 ≤ s)
   | none => false)

/-! ### Generic item service (`src/calculate.py`)

`db` is a Python dict from id to item; a dict preserves insertion order and
assignment to an existing key overwrites in place, so it is embedded as an
association list with an upsert. -/

/-- `Item` model. -/
structure Item : Type where
  id : Nat
  name : String
  price : ℚ
deriving DecidableEq, Repr

/-- `CreateItem` request body. -/
structure CreateItem : Type where
  name : String
  price : ℚ
deriving DecidableEq, Repr

/-- The dict `db`, as an insertion-ordered association list with unique
keys. -/
abbrev ItemDb : Type := List (Nat × Item)

/-- `db[k] = v` on a Python dict: overwrite in place when the key exists,
else append. -/
def dictSet (db : ItemDb) (k : Nat) (v : Item) : ItemDb :=
  if (db : List (Nat × Item)).any (fun kv => kv.1 == k) then
    (db : List (Nat × Item)).map (fun kv => if kv.1 == k then (k, v) else kv)
  else (db : List (Nat × Item)) ++ [(k, v)]

/-- `create_item`: `new_id = len(db) + 1`; the new item is stored under
`new_id` (overwriting any item already there) and returned.  Never fails. -/
def create_item (db : ItemDb) (c : CreateItem) : Item × ItemDb :=
  let new_id := (db : List (Nat × Item)).length + 1
  let it : Item := ⟨new_id, c.name, c.price⟩
  (it, dictSet db new_id it)

/-- `delete_item`: 404 when the key is absent, else `db.pop(item_id)`
returning the removed item. -/
def delete_item : ItemDb → Nat → Except Err (Item × ItemDb)
  | [], _ => .error .notFound
  | kv :: rest, k =>
    if kv.1 == k then .ok (kv.2, rest)
    else
      match delete_item rest k with
      | .error e => .error e
      | .ok (it, rest') => .ok (it, kv :: rest')

/-! ### Operation sequences

Traces of API calls against one service, recording the ids assigned by the
successful creates.  A failed call leaves the state as it was. -/

/-- One API call against the product service. -/
inductive POp : Type
  | createOp : ProductCreate → String → POp
  | updateOp : Nat → ProductUpdate → String → POp
  | deleteOp : Nat → POp

/-- Run one product-service call: the resulting state and the ids assigned
by it (one id for a successful create, none otherwise). -/
def stepOp (st : ProductState) : POp → ProductState × List Nat
  | .createOp c now =>
    match create_product_api st c now with
    | .ok (p, st') => (st', [p.id])
    | .error _ => (st, [])
  | .updateOp pid u now =>
    match update_product_api st pid u now with
    | .ok (_, st') => (st', [])
    | .error _ => (st, [])
  | .deleteOp pid =>
    match delete_product st pid with
    | .ok st' => (st', [])
    | .error _ => (st, [])

/-- Run a sequence of product-service calls, collecting the assigned ids in
order. -/
def runOps : ProductState → List POp → ProductState × List Nat
  | st, [] => (st, [])
  | st, op :: rest =>
    ((runOps (stepOp st op).1 rest).1, (stepOp st op).2 ++ (runOps (stepOp st op).1 rest).2)

/-- Run one employee-service create call — the only mutating endpoint
`src/app.py` exposes — recording the assigned id on success. -/
def stepEmp (st : EmployeeState) (cn : EmployeeCreate × String) : EmployeeState × List Nat :=
  match create_employee_api st cn.1 cn.2 with
  | .ok (e, st') => (st', [e.id])
  | .error _ => (st, [])

/-- Run a sequence of employee-service creates, collecting the assigned
ids in order. -/
def runEmps : EmployeeState → List (EmployeeCreate × String) → EmployeeState × List Nat
  | st, [] => (st, [])
  | st, cn :: rest =>
    ((runEmps (stepEmp st cn).1 rest).1, (stepEmp st cn).2 ++ (runEmps (stepEmp st cn).1 rest).2)

/-- One API call against the generic item service. -/
inductive IOp : Type
  | createOp : CreateItem → IOp
  | deleteOp : Nat → IOp

/-- Run one item-service call, recording the id assigned by a create. -/
def stepItem (db : ItemDb) : IOp → ItemDb × List Nat
  | .createOp c =>
    let (it, db') := create_item db c
    (db', [it.id])
  | .deleteOp k =>
    match delete_item db k with
    | .ok (_, db') => (db', [])
    | .error _ => (db, [])

/-- Run a sequence of item-service calls, collecting the assigned ids in
order. -/
def runItems : ItemDb → List IOp → ItemDb × List Nat
  | db, [] => (db, [])
  | db, op :: rest =>
    ((runItems (stepItem db op).1 rest).1, (stepItem db op).2 ++ (runItems (stepItem db op).1 rest).2)

/-! ### Characterization lemmas -/

/-- A successful `POST /products` call assigns `next_product_id`, appends
the new record, bumps the counter by one, and implies the body was valid
and no live name matched. -/
theorem create_product_api_ok {st : ProductState} {c : ProductCreate} {now : String}
    {p : Product} {st' : ProductState}
    (h : create_product_api st c now = .ok (p, st')) :
    p.id = st.next_product_id ∧ st'.next_product_id = st.next_product_id + 1 ∧
    st'.db = st.db ++ [p] ∧ productCreateValid c = true ∧
    st.db.any (fun q => nameMatches q.name c.name) = false := by
  unfold create_product_api at h
  by_cases hv : productCreateValid c = true
  · rw [if_pos hv] at h
    unfold create_product at h
    by_cases hc : st.db.any (fun q => nameMatches q.name c.name) = true
    · rw [if_pos hc] at h
      exact absurd h (by simp)
    · rw [if_neg hc] at h
      cases h
      exact ⟨rfl, rfl, rfl, hv, by simpa using hc⟩
  · rw [if_neg hv] at h
    exact absurd h (by simp)

/-- A successful `POST /employee` call assigns `next_employee_id`, appends
the new record, and bumps the counter by one. -/
theorem create_employee_api_ok {st : EmployeeState} {c : EmployeeCreate} {now : String}
    {e : Employee} {st' : EmployeeState}
    (h : create_employee_api st c now = .ok (e, st')) :
    e.id = st.next_employee_id ∧ st'.next_employee_id = st.next_employee_id + 1 ∧
    st'.db = st.db ++ [e] := by
  unfold create_employee_api at h
  by_cases hv : emailWellFormed c.email = true
  · rw [if_pos hv] at h
    unfold create_employee at h
    by_cases hc : st.db.any (fun q => q.email == c.email) = true
    · rw [if_pos hc] at h
      exact absurd h (by simp)
    · rw [if_neg hc] at h
      cases h
      exact ⟨rfl, rfl, rfl⟩
  · rw [if_neg hv] at h
    exact absurd h (by simp)

/-- Structure of a successful pass of the `update_product` loop: the store
splits as `l ++ p :: r` with `p` the first record matching the id, the
update body was non-empty, and the result replaces exactly that position by
the merged record. -/
theorem update_db_ok {pid : Nat} {u : ProductUpdate} {now : String} :
    ∀ {db db' : List Product} {p' : Product},
    update_db db pid u now = .ok (p', db') →
    ∃ l p r, db = l ++ p :: r ∧ p.id = pid ∧ (∀ q ∈ l, q.id ≠ pid) ∧
      u.isEmptyDict = false ∧ p' = applyUpdate p u now ∧ db' = l ++ p' :: r := by
  intro db
  induction db with
  | nil =>
    intro db' p' h
    simp [update_db] at h
  | cons a rest ih =>
    intro db' p' h
    simp only [update_db] at h
    by_cases ha : (a.id == pid) = true
    · rw [if_pos ha] at h
      by_cases he : u.isEmptyDict = true
      · rw [if_pos he] at h
        exact absurd h (by simp)
      · rw [if_neg he] at h
        cases h
        exact ⟨[], a, rest, rfl, by simpa using ha, by simp, by simpa using he, rfl, rfl⟩
    · rw [if_neg ha] at h
      cases hrec : update_db rest pid u now with
      | error e =>
        rw [hrec] at h
        exact absurd h (by simp)
      | ok v =>
        obtain ⟨q, rest'⟩ := v
        rw [hrec] at h
        cases h
        obtain ⟨l, p, r, h1, h2, h3, h4, h5, h6⟩ := ih hrec
        exact ⟨a :: l, p, r, by simp [h1], h2, by
          intro x hx
          rcases List.mem_cons.mp hx with hx | hx
          · subst hx; simpa using ha
          · exact h3 x hx, h4, h5, by simp [h6]⟩

/-- The `update_product` loop 404s exactly on stores holding no record
with the requested id. -/
theorem update_db_notFound {pid : Nat} {u : ProductUpdate} {now : String} :
    ∀ {db : List Product}, (∀ p ∈ db, p.id ≠ pid) →
    update_db db pid u now = .error .notFound := by
  intro db
  induction db with
  | nil => intro _; rfl
  | cons a rest ih =>
    intro hall
    have ha : ¬((a.id == pid) = true) := by
      simpa using hall a (List.mem_cons_self a rest)
    simp only [update_db]
    rw [if_neg ha, ih (fun p hp => hall p (List.mem_cons_of_mem a hp))]

/-- When some record matches the id and the update body is empty, the
`update_product` loop rejects with the 400 "No fields provided". -/
theorem update_db_found_empty {pid : Nat} {u : ProductUpdate} {now : String}
    (hu : u.isEmptyDict = true) :
    ∀ {db : List Product}, (∃ p ∈ db, p.id = pid) →
    update_db db pid u now = .error .validationError := by
  intro db
  induction db with
  | nil => rintro ⟨p, hp, -⟩; exact absurd hp (by simp)
  | cons a rest ih =>
    rintro ⟨p, hp, hpid⟩
    simp only [update_db]
    by_cases ha : (a.id == pid) = true
    · rw [if_pos ha, if_pos hu]
    · rw [if_neg ha]
      have hpr : p ∈ rest := by
        rcases List.mem_cons.mp hp with hpa | hpr
        · exact absurd (by simpa [hpa] using hpid) ha
        · exact hpr
      rw [ih ⟨p, hpr, hpid⟩]

/-- Lift of the loop characterizations through the `update_product`
handler: a success leaves the counter unchanged and acts on the store as
the loop does. -/
theorem update_product_ok {st : ProductState} {pid : Nat} {u : ProductUpdate} {now : String}
    {p' : Product} {st' : ProductState}
    (h : update_product st pid u now = .ok (p', st')) :
    st'.next_product_id = st.next_product_id ∧
    update_db st.db pid u now = .ok (p', st'.db) := by
  unfold update_product at h
  cases hdb : update_db st.db pid u now with
  | error e =>
    rw [hdb] at h
    exact absurd h (by simp)
  | ok v =>
    obtain ⟨q, db'⟩ := v
    rw [hdb] at h
    cases h
    exact ⟨rfl, rfl⟩

/-- Structure of a successful pass of the `delete_product` loop: the store
splits as `l ++ p :: r` with `p` the first record matching the id, and the
result is `l ++ r`. -/
theorem delete_db_ok {pid : Nat} :
    ∀ {db db' : List Product},
    delete_db db pid = .ok db' →
    ∃ l p r, db = l ++ p :: r ∧ p.id = pid ∧ (∀ q ∈ l, q.id ≠ pid) ∧ db' = l ++ r := by
  intro db
  induction db with
  | nil =>
    intro db' h
    simp [delete_db] at h
  | cons a rest ih =>
    intro db' h
    simp only [delete_db] at h
    by_cases ha : (a.id == pid) = true
    · rw [if_pos ha] at h
      cases h
      exact ⟨[], a, rest, rfl, by simpa using ha, by simp, rfl⟩
    · rw [if_neg ha] at h
      cases hrec : delete_db rest pid with
      | error e =>
        rw [hrec] at h
        exact absurd h (by simp)
      | ok rest' =>
        rw [hrec] at h
        cases h
        obtain ⟨l, p, r, h1, h2, h3, h4⟩ := ih hrec
        exact ⟨a :: l, p, r, by simp [h1], h2, by
          intro x hx
          rcases List.mem_cons.mp hx with hx | hx
          · subst hx; simpa using ha
          · exact h3 x hx, by simp [h4]⟩

/-- The `delete_product` loop 404s exactly on stores holding no record
with the requested id. -/
theorem delete_db_notFound {pid : Nat} :
    ∀ {db : List Product}, (∀ p ∈ db, p.id ≠ pid) →
    delete_db db pid = .error .notFound := by
  intro db
  induction db with
  | nil => intro _; rfl
  | cons a rest ih =>
    intro hall
    have ha : ¬((a.id == pid) = true) := by
      simpa using hall a (List.mem_cons_self a rest)
    simp only [delete_db]
    rw [if_neg ha, ih (fun p hp => hall p (List.mem_cons_of_mem a hp))]

/-- Lift through the `delete_product` handler: a success leaves the
counter unchanged and acts on the store as the loop does. -/
theorem delete_product_ok {st : ProductState} {pid : Nat} {st' : ProductState}
    (h : delete_product st pid = .ok st') :
    st'.next_product_id = st.next_product_id ∧
    delete_db st.db pid = .ok st'.db := by
  unfold delete_product at h
  cases hdb : delete_db st.db pid with
  | error e =>
    rw [hdb] at h
    exact absurd h (by simp)
  | ok db' =>
    rw [hdb] at h
    cases h
    exact ⟨rfl, rfl⟩

/-- Structure of a successful `delete_item`: the dict splits as
`l ++ (k, it) :: r` with `k` absent from `l`, and the result is `l ++ r`
with the removed item returned. -/
theorem delete_item_ok {k : Nat} :
    ∀ {db db' : ItemDb} {it : Item},
    delete_item db k = .ok (it, db') →
    ∃ l r, db = l ++ (k, it) :: r ∧ (∀ kv ∈ l, kv.1 ≠ k) ∧ db' = l ++ r := by
  intro db
  induction db with
  | nil =>
    intro db' it h
    simp [delete_item] at h
  | cons a rest ih =>
    intro db' it h
    simp only [delete_item] at h
    by_cases ha : (a.1 == k) = true
    · rw [if_pos ha] at h
      cases h
      have hk : a.1 = k := by simpa using ha
      exact ⟨[], rest, by simp [← hk], by simp, rfl⟩
    · rw [if_neg ha] at h
      cases hrec : delete_item rest k with
      | error e =>
        rw [hrec] at h
        exact absurd h (by simp)
      | ok v =>
        obtain ⟨it2, rest'⟩ := v
        rw [hrec] at h
        cases h
        obtain ⟨l, r, h1, h2, h3⟩ := ih hrec
        exact ⟨a :: l, r, by simp [h1], by
          intro x hx
          rcases List.mem_cons.mp hx with hx | hx
          · subst hx; simpa using ha
          · exact h2 x hx, by simp [h3]⟩

/-- `delete_item` 404s exactly on dicts not holding the requested key. -/
theorem delete_item_notFound {k : Nat} :
    ∀ {db : ItemDb}, (∀ kv ∈ db, kv.1 ≠ k) →
    delete_item db k = .error .notFound := by
  intro db
  induction db with
  | nil => intro _; rfl
  | cons a rest ih =>
    intro hall
    have ha : ¬((a.1 == k) = true) := by
      simpa using hall a (List.mem_cons_self a rest)
    simp only [delete_item]
    rw [if_neg ha, ih (fun kv hkv => hall kv (List.mem_cons_of_mem a hkv))]

/-- `List.range'` glue: consecutive blocks of assigned ids concatenate to
one block. -/
theorem range'_glue (n a b : Nat) :
    List.range' n a ++ List.range' (n + a) b = List.range' n (a + b) := by
  rw [Nat.add_comm a b]
  simp

/-- One product-service call assigns a (possibly empty) block of ids
starting at the current counter and advances the counter by the block
length: a successful create assigns exactly the counter and bumps it by
one, every other call leaves the counter untouched. -/
theorem stepOp_spec (st : ProductState) (op : POp) :
    ∃ k, (stepOp st op).2 = List.range' st.next_product_id k ∧
      (stepOp st op).1.next_product_id = st.next_product_id + k := by
  cases op with
  | createOp c now =>
    simp only [stepOp]
    cases h : create_product_api st c now with
    | error e => exact ⟨0, by simp, by simp⟩
    | ok v =>
      obtain ⟨p, st'⟩ := v
      obtain ⟨hid, hnext, -, -, -⟩ := create_product_api_ok h
      exact ⟨1, by simp [List.range'_one, hid], by simp [hnext]⟩
  | updateOp pid u now =>
    simp only [stepOp]
    cases h : update_product_api st pid u now with
    | error e => exact ⟨0, by simp, by simp⟩
    | ok v =>
      obtain ⟨q, st'⟩ := v
      have hnext : st'.next_product_id = st.next_product_id := by
        unfold update_product_api at h
        by_cases hv : productUpdateValid u = true
        · rw [if_pos hv] at h
          exact (update_product_ok h).1
        · rw [if_neg hv] at h
          exact absurd h (by simp)
      exact ⟨0, by simp, by simp [hnext]⟩
  | deleteOp pid =>
    simp only [stepOp]
    cases h : delete_product st pid with
    | error e => exact ⟨0, by simp, by simp⟩
    | ok st' => exact ⟨0, by simp, by simp [(delete_product_ok h).1]⟩

/-- Over any sequence of product-service calls the successful creates are
assigned exactly the consecutive ids starting at the current counter, and
the counter ends advanced by their number. -/
theorem runOps_spec (ops : List POp) : ∀ st : ProductState,
    ∃ k, (runOps st ops).2 = List.range' st.next_product_id k ∧
      (runOps st ops).1.next_product_id = st.next_product_id + k := by
  induction ops with
  | nil => intro st; exact ⟨0, by simp [runOps], by simp [runOps]⟩
  | cons op rest ih =>
    intro st
    obtain ⟨a, ha1, ha2⟩ := stepOp_spec st op
    obtain ⟨b, hb1, hb2⟩ := ih (stepOp st op).1
    refine ⟨a + b, ?_, ?_⟩
    · show (stepOp st op).2 ++ (runOps (stepOp st op).1 rest).2 = _
      rw [ha1, hb1, ha2, range'_glue]
    · show (runOps (stepOp st op).1 rest).1.next_product_id = _
      rw [hb2, ha2, Nat.add_assoc]

/-- One employee-service call assigns a (possibly empty) block of ids
starting at the current counter and advances the counter by the block
length. -/
theorem stepEmp_spec (st : EmployeeState) (cn : EmployeeCreate × String) :
    ∃ k, (stepEmp st cn).2 = List.range' st.next_employee_id k ∧
      (stepEmp st cn).1.next_employee_id = st.next_employee_id + k := by
  simp only [stepEmp]
  cases h : create_employee_api st cn.1 cn.2 with
  | error e => exact ⟨0, by simp, by simp⟩
  | ok v =>
    obtain ⟨e, st'⟩ := v
    obtain ⟨hid, hnext, -⟩ := create_employee_api_ok h
    exact ⟨1, by simp [List.range'_one, hid], by simp [hnext]⟩

/-- Over any sequence of employee-service creates the successful ones are
assigned exactly the consecutive ids starting at the current counter, and
the counter ends advanced by their number. -/
theorem runEmps_spec (ecs : List (EmployeeCreate × String)) : ∀ st : EmployeeState,
    ∃ k, (runEmps st ecs).2 = List.range' st.next_employee_id k ∧
      (runEmps st ecs).1.next_employee_id = st.next_employee_id + k := by
  induction ecs with
  | nil => intro st; exact ⟨0, by simp [runEmps], by simp [runEmps]⟩
  | cons cn rest ih =>
    intro st
    obtain ⟨a, ha1, ha2⟩ := stepEmp_spec st cn
    obtain ⟨b, hb1, hb2⟩ := ih (stepEmp st cn).1
    refine ⟨a + b, ?_, ?_⟩
    · show (stepEmp st cn).2 ++ (runEmps (stepEmp st cn).1 rest).2 = _
      rw [ha1, hb1, ha2, range'_glue]
    · show (runEmps (stepEmp st cn).1 rest).1.next_employee_id = _
      rw [hb2, ha2, Nat.add_assoc]

/-! ### Concrete fixtures used by witnesses and counterexamples -/

/-- The update body `{}` (no field set). -/
def emptyUpdate : ProductUpdate := ⟨none, none, none, none, none⟩

/-- The update body `{"name": null}`. -/
def nullNameUpdate : ProductUpdate := ⟨some none, none, none, none, none⟩

/-- A valid live product record. -/
def demoProduct : Product := ⟨1, some "Alpha", some "d", some 1, some "c", some 1, "t0", "t0"⟩

/-- A second valid live product record. -/
def demoProduct2 : Product := ⟨2, some "Beta", some "d", some 1, some "c", some 1, "t0", "t0"⟩

/-- A two-record product store with counter 3. -/
def demoState : ProductState := ⟨[demoProduct, demoProduct2], 3⟩

/-! ### Claims -/

/-- The item-service trace used by the C1 counterexample. -/
def c1itemOps : List IOp :=
  [IOp.createOp ⟨"a", 5⟩, IOp.deleteOp 1, IOp.createOp ⟨"b", 5⟩]

/-- C1, counterexample: in the generic item service (`src/calculate.py`),
starting from the empty seed dict (maximum seed id 0), the trace
create–delete(1)–create performs two successful creates whose assigned ids
are `[1, 1]` — not strictly increasing and not `[1, 2]` — because
`create_item` computes `new_id = len(db) + 1` rather than keeping a
counter.  The middle conjunct shows the interleaved delete succeeded. -/
theorem c1_counterexample :
    (runItems [] c1itemOps).2 = [1, 1] ∧
    delete_item (runItems [] [IOp.createOp ⟨"a", 5⟩]).1 1 =
      Except.ok (⟨1, "a", 5⟩, ([] : ItemDb)) ∧
    ¬ List.Pairwise (fun i j => i < j) (runItems [] c1itemOps).2 := by
  decide

/-- C1, amended to the counter-based services — the product service, over
arbitrary traces of creates, updates and deletes, and the employee
service, over traces of creates (its only mutating endpoint): starting
from a state whose counter reads one past the maximum seed id, the ids
assigned by the successful creates are exactly `seed_max + 1,
seed_max + 2, …`, strictly increasing, regardless of interleaved failed
or non-create calls, the final counter is one past the seed maximum plus
the number of successful creates, and a successful create that assigns id
`k` leaves the counter at `k + 1`. -/
theorem c1_id_monotonicity (st : ProductState) (est : EmployeeState) (m em : Nat)
    (ops : List POp) (ecs : List (EmployeeCreate × String))
    (hseed : st.next_product_id = m + 1)
    (heseed : est.next_employee_id = em + 1) :
    ((runOps st ops).2 = List.range' (m + 1) (runOps st ops).2.length ∧
      List.Pairwise (fun i j => i < j) (runOps st ops).2 ∧
      (runOps st ops).1.next_product_id = m + 1 + (runOps st ops).2.length) ∧
    ((runEmps est ecs).2 = List.range' (em + 1) (runEmps est ecs).2.length ∧
      List.Pairwise (fun i j => i < j) (runEmps est ecs).2 ∧
      (runEmps est ecs).1.next_employee_id = em + 1 + (runEmps est ecs).2.length) ∧
    (∀ (c : ProductCreate) (now : String) (p : Product) (st' : ProductState),
      create_product_api st c now = .ok (p, st') →
      p.id = st.next_product_id ∧ st'.next_product_id = p.id + 1) ∧
    (∀ (c : EmployeeCreate) (now : String) (e : Employee) (est' : EmployeeState),
      create_employee_api est c now = .ok (e, est') →
      e.id = est.next_employee_id ∧ est'.next_employee_id = e.id + 1) := by
  obtain ⟨k, h1, h2⟩ := runOps_spec ops st
  rw [hseed] at h1 h2
  have hlen : (runOps st ops).2.length = k := by
    rw [h1]
    exact List.length_range' ..
  obtain ⟨j, g1, g2⟩ := runEmps_spec ecs est
  rw [heseed] at g1 g2
  have glen : (runEmps est ecs).2.length = j := by
    rw [g1]
    exact List.length_range' ..
  refine ⟨⟨?_, ?_, ?_⟩, ⟨?_, ?_, ?_⟩, ?_, ?_⟩
  · rw [hlen, h1]
  · rw [h1]
    exact List.pairwise_lt_range' ..
  · rw [hlen, h2]
  · rw [glen, g1]
  · rw [g1]
    exact List.pairwise_lt_range' ..
  · rw [glen, g2]
  · intro c now p st' h
    obtain ⟨hid, hnext, -, -, -⟩ := create_product_api_ok h
    exact ⟨hid, by rw [hnext, hid]⟩
  · intro c now e est' h
    obtain ⟨hid, hnext, -⟩ := create_employee_api_ok h
    exact ⟨hid, by rw [hnext, hid]⟩

/-- The fresh one-past-seed product state used by the C1 witness. -/
def c1seed : ProductState := ⟨[], 1⟩

/-- The product-service trace used by the C1 witness: create, interleaved
delete, create. -/
def c1ops : List POp :=
  [POp.createOp ⟨"a", "d", 1, "c", 1⟩ "t1", POp.deleteOp 1,
   POp.createOp ⟨"b", "d", 1, "c", 1⟩ "t2"]

/-- The fresh one-past-seed employee state used by the C1 witness. -/
def c1eseed : EmployeeState := ⟨[], 1⟩

/-- The employee-service trace used by the C1 witness: a create, a failed
duplicate-email create interleaved, and another create. -/
def c1ecs : List (EmployeeCreate × String) :=
  [(⟨"a", "a@x.com", "d", "p"⟩, "t1"), (⟨"b", "a@x.com", "d", "p"⟩, "t2"),
   (⟨"c", "c@x.com", "d", "p"⟩, "t3")]

/-- C1 witness: the amended theorem applied to concrete seed states and
concrete traces — a delete between two creates on the product side, a
failed duplicate create between two successful ones on the employee
side. -/
theorem c1_id_monotonicity_witness :
    c1seed.next_product_id = 0 + 1 ∧ c1eseed.next_employee_id = 0 + 1 ∧
    (((runOps c1seed c1ops).2 = List.range' (0 + 1) (runOps c1seed c1ops).2.length ∧
      List.Pairwise (fun i j => i < j) (runOps c1seed c1ops).2 ∧
      (runOps c1seed c1ops).1.next_product_id = 0 + 1 + (runOps c1seed c1ops).2.length) ∧
     ((runEmps c1eseed c1ecs).2 = List.range' (0 + 1) (runEmps c1eseed c1ecs).2.length ∧
      List.Pairwise (fun i j => i < j) (runEmps c1eseed c1ecs).2 ∧
      (runEmps c1eseed c1ecs).1.next_employee_id =
        0 + 1 + (runEmps c1eseed c1ecs).2.length) ∧
     (∀ (c : ProductCreate) (now : String) (p : Product) (st' : ProductState),
       create_product_api c1seed c now = .ok (p, st') →
       p.id = c1seed.next_product_id ∧ st'.next_product_id = p.id + 1) ∧
     (∀ (c : EmployeeCreate) (now : String) (e : Employee) (est' : EmployeeState),
       create_employee_api c1eseed c now = .ok (e, est') →
       e.id = c1eseed.next_employee_id ∧ est'.next_employee_id = e.id + 1)) :=
  ⟨rfl, rfl, c1_id_monotonicity c1seed c1eseed 0 0 c1ops c1ecs rfl rfl⟩

/-- C4, counterexample: in the generic item service, after `delete(1)`
succeeds (first conjunct, on the dict produced by one create), a
subsequent create on the resulting empty dict again returns a record with
id 1, because `create_item` derives ids from `len(db) + 1`. -/
theorem c4_counterexample :
    delete_item (create_item [] ⟨"a", 5⟩).2 1 = Except.ok (⟨1, "a", 5⟩, ([] : ItemDb)) ∧
    (create_item ([] : ItemDb) ⟨"b", 5⟩).1.id = 1 := by
  decide

/-- C4, amended to the counter-based services (here the product service):
in any state whose live ids are all below the counter — an invariant of
the seed and of every operation — after `delete_product k` succeeds, no
sequence of further calls ever assigns id `k` to a successful create. -/
theorem c4_no_id_reuse (st st' : ProductState) (k : Nat) (ops : List POp)
    (hbound : ∀ p ∈ st.db, p.id < st.next_product_id)
    (hdel : delete_product st k = .ok st') :
    k ∉ (runOps st' ops).2 := by
  obtain ⟨hnext, hdb⟩ := delete_product_ok hdel
  obtain ⟨l, p, r, hsplit, hpid, -, -⟩ := delete_db_ok hdb
  have hk : k < st.next_product_id := by
    rw [← hpid]
    exact hbound p (by
      rw [hsplit]
      exact List.mem_append_right l (List.mem_cons_self p r))
  obtain ⟨n, hids, -⟩ := runOps_spec ops st'
  intro hmem
  rw [hids] at hmem
  have hge := (List.mem_range'_1.mp hmem).1
  rw [hnext] at hge
  omega

/-- The trace used by the C4 witness. -/
def c4ops : List POp := [POp.createOp ⟨"b", "d", 1, "c", 1⟩ "t1"]

/-- C4 witness: deleting id 1 from a concrete one-record store and then
running a create never re-assigns id 1. -/
theorem c4_no_id_reuse_witness :
    (∀ p ∈ (⟨[demoProduct], 2⟩ : ProductState).db, p.id < 2) ∧
    delete_product ⟨[demoProduct], 2⟩ 1 = Except.ok (⟨[], 2⟩ : ProductState) ∧
    1 ∉ (runOps ⟨[], 2⟩ c4ops).2 :=
  ⟨by decide, by decide,
   c4_no_id_reuse ⟨[demoProduct], 2⟩ ⟨[], 2⟩ 1 c4ops (by decide) (by decide)⟩

/-- C2: when some live record already carries the candidate's
uniqueness-field value — case-insensitive name for products, exact email
for employees — the create handler raises the duplicate 400 (`Conflict`)
and returns no successor state: record count and counter are untouched. -/
theorem c2_uniqueness_conflict :
    (∀ (st : ProductState) (c : ProductCreate) (now : String),
      (∃ p ∈ st.db, nameMatches p.name c.name = true) →
      create_product st c now = .error .conflict) ∧
    (∀ (st : EmployeeState) (c : EmployeeCreate) (now : String),
      (∃ e ∈ st.db, e.email = c.email) →
      create_employee st c now = .error .conflict) := by
  constructor
  · rintro st c now ⟨p, hp, hm⟩
    unfold create_product
    rw [if_pos (List.any_eq_true.mpr ⟨p, hp, hm⟩)]
  · rintro st c now ⟨e, he, hm⟩
    unfold create_employee
    rw [if_pos (List.any_eq_true.mpr ⟨e, he, by simp [hm]⟩)]

/-- C2 witness: a concrete duplicate create on each service signals
`Conflict`. -/
theorem c2_uniqueness_conflict_witness :
    (∃ p ∈ demoState.db, nameMatches p.name "alpha" = true) ∧
    create_product demoState ⟨"alpha", "x", 2, "y", 3⟩ "t9" = .error .conflict ∧
    (∃ e ∈ (⟨[⟨1, "n", "a@x.com", "d", "p", "t0"⟩], 2⟩ : EmployeeState).db,
      e.email = "a@x.com") ∧
    create_employee ⟨[⟨1, "n", "a@x.com", "d", "p", "t0"⟩], 2⟩
      ⟨"m", "a@x.com", "d2", "p2"⟩ "t9" = .error .conflict :=
  ⟨⟨demoProduct, by decide, by decide⟩,
   c2_uniqueness_conflict.1 demoState ⟨"alpha", "x", 2, "y", 3⟩ "t9"
     ⟨demoProduct, by decide, by decide⟩,
   ⟨⟨1, "n", "a@x.com", "d", "p", "t0"⟩, by decide, rfl⟩,
   c2_uniqueness_conflict.2 ⟨[⟨1, "n", "a@x.com", "d", "p", "t0"⟩], 2⟩
     ⟨"m", "a@x.com", "d2", "p2"⟩ "t9"
     ⟨⟨1, "n", "a@x.com", "d", "p", "t0"⟩, by decide, rfl⟩⟩

/-- C3: a successful `update_product` touches exactly the first record
whose id matches — the store around it (`l` and `r`) and the counter are
unchanged — and inside that record `id` and `created_at` are preserved,
`updated_at` becomes the call's timestamp, and every field not set in the
partial keeps its stored value.  For a single-field partial this is
precisely "only that field and `updated_at` change". -/
theorem c3_update_isolation (st : ProductState) (pid : Nat) (u : ProductUpdate)
    (now : String) (p' : Product) (st' : ProductState)
    (h : update_product st pid u now = .ok (p', st')) :
    ∃ l p r, st.db = l ++ p :: r ∧ st'.db = l ++ p' :: r ∧
      st'.next_product_id = st.next_product_id ∧
      p.id = pid ∧ p'.id = p.id ∧ p'.created_at = p.created_at ∧ p'.updated_at = now ∧
      (u.name = none → p'.name = p.name) ∧
      (u.descr = none → p'.descr = p.descr) ∧
      (u.price = none → p'.price = p.price) ∧
      (u.category = none → p'.category = p.category) ∧
      (u.stock_quantity = none → p'.stock_quantity = p.stock_quantity) := by
  obtain ⟨hnext, hdb⟩ := update_product_ok h
  obtain ⟨l, p, r, h1, h2, h3, h4, h5, h6⟩ := update_db_ok hdb
  subst h5
  refine ⟨l, p, r, h1, h6, hnext, h2, rfl, rfl, rfl, ?_, ?_, ?_, ?_, ?_⟩ <;>
    intro hu <;> simp [applyUpdate, hu]

/-- The single-field partial `{price: 2}` used by the C3 witness. -/
def priceU : ProductUpdate := ⟨none, none, some (some 2), none, none⟩

/-- The record of `demoState` with id 1 after the C3 witness update. -/
def demoP1v2 : Product := ⟨1, some "Alpha", some "d", some 2, some "c", some 1, "t0", "t9"⟩

/-- `demoState` after the C3 witness update. -/
def demoStateV2 : ProductState := ⟨[demoP1v2, demoProduct2], 3⟩

/-- C3 witness: a concrete single-field update changes only `price` and
`updated_at`. -/
theorem c3_update_isolation_witness :
    update_product demoState 1 priceU "t9" = Except.ok (demoP1v2, demoStateV2) ∧
    (∃ l p r, demoState.db = l ++ p :: r ∧ demoStateV2.db = l ++ demoP1v2 :: r ∧
      demoStateV2.next_product_id = demoState.next_product_id ∧
      p.id = 1 ∧ demoP1v2.id = p.id ∧ demoP1v2.created_at = p.created_at ∧
      demoP1v2.updated_at = "t9" ∧
      (priceU.name = none → demoP1v2.name = p.name) ∧
      (priceU.descr = none → demoP1v2.descr = p.descr) ∧
      (priceU.price = none → demoP1v2.price = p.price) ∧
      (priceU.category = none → demoP1v2.category = p.category) ∧
      (priceU.stock_quantity = none → demoP1v2.stock_quantity = p.stock_quantity)) :=
  ⟨by decide, c3_update_isolation demoState 1 priceU "t9" demoP1v2 demoStateV2 (by decide)⟩

/-- C5, counterexample: an empty update of an absent id yields `NotFound`,
not `ValidationError` — the source checks `if not update_data` only inside
the loop, after a record with the requested id has been found. -/
theorem c5_counterexample :
    update_product demoState 999 emptyUpdate "t9" = .error .notFound ∧
    update_product demoState 999 emptyUpdate "t9" ≠ .error .validationError := by
  decide

/-- C5, amended: `update(id, {})` signals `ValidationError` (with no
successor state, hence no mutation) whenever some live record carries the
id; on an absent id the existence check wins and it signals `NotFound`. -/
theorem c5_empty_update (st : ProductState) (pid : Nat) (now : String) :
    ((∃ p ∈ st.db, p.id = pid) →
      update_product st pid emptyUpdate now = .error .validationError) ∧
    ((∀ p ∈ st.db, p.id ≠ pid) →
      update_product st pid emptyUpdate now = .error .notFound) := by
  constructor
  · intro hex
    unfold update_product
    rw [update_db_found_empty (show emptyUpdate.isEmptyDict = true from rfl) hex]
  · intro hall
    unfold update_product
    rw [update_db_notFound hall]

/-- C5 witness: both branches of the amended theorem at concrete inputs. -/
theorem c5_empty_update_witness :
    (∃ p ∈ demoState.db, p.id = 1) ∧
    update_product demoState 1 emptyUpdate "t9" = .error .validationError ∧
    (∀ p ∈ demoState.db, p.id ≠ 999) ∧
    update_product demoState 999 emptyUpdate "t9" = .error .notFound :=
  ⟨⟨demoProduct, by decide, rfl⟩,
   (c5_empty_update demoState 1 "t9").1 ⟨demoProduct, by decide, rfl⟩,
   by decide,
   (c5_empty_update demoState 999 "t9").2 (by decide)⟩

/-- C6, counterexample: a product candidate whose string fields are all
empty passes pydantic validation — `name`, `description` and `category`
are plain `str` fields with no non-emptiness constraint — so the create
does not signal `ValidationError` (it succeeds on `demoState`). -/
theorem c6_counterexample :
    create_product_api demoState ⟨"", "", 1, "", 0⟩ "t9" ≠ .error .validationError ∧
    (create_product_api demoState ⟨"", "", 1, "", 0⟩ "t9").isOk = true := by
  decide

/-- C6, amended: `POST /products` signals `ValidationError` exactly when
`price ≤ 0` or `stock_quantity < 0`, and `POST /employee` exactly when the
email is malformed (the `EmailStr` check, modelled from the spec since the
pydantic validator is library code outside `src/`); plain string fields
carry no non-emptiness constraint, so empty strings never trigger
`ValidationError`.  Each equivalence holds in every state, in particular
in states where the candidate's uniqueness field conflicts with a live
record: validation is decided before the uniqueness scan and an invalid
body never mutates the store. -/
theorem c6_field_validation :
    (∀ (st : ProductState) (c : ProductCreate) (now : String),
      create_product_api st c now = .error .validationError ↔
        ¬(0 < c.price ∧ 0 ≤ c.stock_quantity)) ∧
    (∀ (st : EmployeeState) (c : EmployeeCreate) (now : String),
      create_employee_api st c now = .error .validationError ↔
        emailWellFormed c.email = false) := by
  constructor
  · intro st c now
    have hval : productCreateValid c = true ↔ (0 < c.price ∧ 0 ≤ c.stock_quantity) := by
      simp [productCreateValid]
    unfold create_product_api
    by_cases hv : productCreateValid c = true
    · rw [if_pos hv]
      simp only [hval.mp hv, not_true_eq_false, iff_false]
      unfold create_product
      by_cases hc : st.db.any (fun p => nameMatches p.name c.name) = true
      · rw [if_pos hc]
        simp
      · rw [if_neg hc]
        simp
    · rw [if_neg hv]
      rw [hval] at hv
      simp [hv]
  · intro st c now
    unfold create_employee_api
    by_cases hv : emailWellFormed c.email = true
    · rw [if_pos hv, hv]
      simp only [Bool.true_eq_false, iff_false]
      unfold create_employee
      by_cases hc : st.db.any (fun e => e.email == c.email) = true
      · rw [if_pos hc]
        simp
      · rw [if_neg hc]
        simp
    · have hfalse : emailWellFormed c.email = false := by
        cases hcase : emailWellFormed c.email
        · rfl
        · exact absurd hcase hv
      rw [if_neg hv, hfalse]
      simp

/-- C7: a successful update applies exactly the explicitly set fields of
the partial to the record it found — a field set to a falsy value such as
`""`, `0` (or even `null`) is applied just like any other — and every
unset field keeps its stored value. -/
theorem c7_update_merge (st : ProductState) (pid : Nat) (u : ProductUpdate)
    (now : String) (p' : Product) (st' : ProductState)
    (h : update_product st pid u now = .ok (p', st')) :
    ∃ p ∈ st.db, p.id = pid ∧
      (∀ v, u.name = some v → p'.name = v) ∧
      (u.name = none → p'.name = p.name) ∧
      (∀ v, u.descr = some v → p'.descr = v) ∧
      (u.descr = none → p'.descr = p.descr) ∧
      (∀ v, u.price = some v → p'.price = v) ∧
      (u.price = none → p'.price = p.price) ∧
      (∀ v, u.category = some v → p'.category = v) ∧
      (u.category = none → p'.category = p.category) ∧
      (∀ v, u.stock_quantity = some v → p'.stock_quantity = v) ∧
      (u.stock_quantity = none → p'.stock_quantity = p.stock_quantity) := by
  obtain ⟨hnext, hdb⟩ := update_product_ok h
  obtain ⟨l, p, r, h1, h2, h3, h4, h5, h6⟩ := update_db_ok hdb
  subst h5
  refine ⟨p, by
    rw [h1]
    exact List.mem_append_right l (List.mem_cons_self p r), h2,
    ?_, ?_, ?_, ?_, ?_, ?_, ?_, ?_, ?_, ?_⟩ <;>
  · first
    | (intro v hu; simp [applyUpdate, hu])
    | (intro hu; simp [applyUpdate, hu])

/-- The partial `{name: "", stock_quantity: 0}` (falsy values, explicitly
set) used by the C7 witness. -/
def falsyU : ProductUpdate := ⟨some (some ""), none, none, none, some (some 0)⟩

/-- The record of `demoState` with id 1 after the C7 witness update. -/
def demoP1falsy : Product := ⟨1, some "", some "d", some 1, some "c", some 0, "t0", "t9"⟩

/-- `demoState` after the C7 witness update. -/
def demoStateFalsy : ProductState := ⟨[demoP1falsy, demoProduct2], 3⟩

/-- C7 witness: a concrete update setting `name` to `""` and
`stock_quantity` to `0` applies both falsy values and keeps the unset
fields. -/
theorem c7_update_merge_witness :
    update_product demoState 1 falsyU "t9" = Except.ok (demoP1falsy, demoStateFalsy) ∧
    (∃ p ∈ demoState.db, p.id = 1 ∧
      (∀ v, falsyU.name = some v → demoP1falsy.name = v) ∧
      (falsyU.name = none → demoP1falsy.name = p.name) ∧
      (∀ v, falsyU.descr = some v → demoP1falsy.descr = v) ∧
      (falsyU.descr = none → demoP1falsy.descr = p.descr) ∧
      (∀ v, falsyU.price = some v → demoP1falsy.price = v) ∧
      (falsyU.price = none → demoP1falsy.price = p.price) ∧
      (∀ v, falsyU.category = some v → demoP1falsy.category = v) ∧
      (falsyU.category = none → demoP1falsy.category = p.category) ∧
      (∀ v, falsyU.stock_quantity = some v → demoP1falsy.stock_quantity = v) ∧
      (falsyU.stock_quantity = none → demoP1falsy.stock_quantity = p.stock_quantity)) :=
  ⟨by decide, c7_update_merge demoState 1 falsyU "t9" demoP1falsy demoStateFalsy (by decide)⟩

/-- The partial `{name: "alpha"}` used by the C8 theorem. -/
def renameU : ProductUpdate := ⟨some (some "alpha"), none, none, none, none⟩

/-- The record of `demoState` with id 2 after the C8 rename. -/
def demoP2renamed : Product := ⟨2, some "alpha", some "d", some 1, some "c", some 1, "t0", "t9"⟩

/-- C8: `update_product` performs no cross-record uniqueness check.  On the
concrete two-record store `demoState`, renaming the record with id 2 to
"alpha" — which matches the other live record's name "Alpha"
case-insensitively (second conjunct) — succeeds, leaving two live records
whose names collide under the create-time uniqueness rule. -/
theorem c8_update_skips_uniqueness :
    update_product demoState 2 renameU "t9" =
      Except.ok (demoP2renamed, ⟨[demoProduct, demoP2renamed], 3⟩) ∧
    nameMatches demoProduct.name "alpha" = true := by
  decide

/-- C9: `delete_product` on a present id removes exactly the first (hence,
ids being unique, the) matching record, preserving the order of `l` and
`r` around it and the counter; on an absent id both `delete_product` and
`delete_item` signal `NotFound` with no successor state; `delete_item` on
a present key likewise removes exactly that entry. -/
theorem c9_delete_behaviour :
    (∀ (st : ProductState) (pid : Nat) (st' : ProductState),
      delete_product st pid = .ok st' →
      ∃ l p r, st.db = l ++ p :: r ∧ p.id = pid ∧ (∀ q ∈ l, q.id ≠ pid) ∧
        st'.db = l ++ r ∧ st'.next_product_id = st.next_product_id) ∧
    (∀ (st : ProductState) (pid : Nat), (∀ p ∈ st.db, p.id ≠ pid) →
      delete_product st pid = .error .notFound) ∧
    (∀ (db db' : ItemDb) (k : Nat) (it : Item),
      delete_item db k = .ok (it, db') →
      ∃ l r, db = l ++ (k, it) :: r ∧ (∀ kv ∈ l, kv.1 ≠ k) ∧ db' = l ++ r) ∧
    (∀ (db : ItemDb) (k : Nat), (∀ kv ∈ db, kv.1 ≠ k) →
      delete_item db k = .error .notFound) := by
  refine ⟨?_, ?_, ?_, ?_⟩
  · intro st pid st' h
    obtain ⟨hnext, hdb⟩ := delete_product_ok h
    obtain ⟨l, p, r, h1, h2, h3, h4⟩ := delete_db_ok hdb
    exact ⟨l, p, r, h1, h2, h3, h4, hnext⟩
  · intro st pid hall
    unfold delete_product
    rw [delete_db_notFound hall]
  · intro db db' k it h
    exact delete_item_ok h
  · intro db k hall
    exact delete_item_notFound hall

/-- C9 witness: all four parts of the theorem at concrete inputs. -/
theorem c9_delete_behaviour_witness :
    delete_product demoState 1 = Except.ok (⟨[demoProduct2], 3⟩ : ProductState) ∧
    (∃ l p r, demoState.db = l ++ p :: r ∧ p.id = 1 ∧ (∀ q ∈ l, q.id ≠ 1) ∧
      [demoProduct2] = l ++ r ∧ (3 : Nat) = demoState.next_product_id) ∧
    delete_product demoState 999 = Except.error Err.notFound ∧
    (∃ l r, ([(1, ⟨1, "a", 5⟩)] : ItemDb) = l ++ (1, (⟨1, "a", 5⟩ : Item)) :: r ∧
      (∀ kv ∈ l, kv.1 ≠ 1) ∧ ([] : ItemDb) = l ++ r) ∧
    delete_item ([(1, ⟨1, "a", 5⟩)] : ItemDb) 2 = Except.error Err.notFound :=
  ⟨by decide,
   c9_delete_behaviour.1 demoState 1 ⟨[demoProduct2], 3⟩ (by decide),
   c9_delete_behaviour.2.1 demoState 999 (by decide),
   c9_delete_behaviour.2.2.1 [(1, ⟨1, "a", 5⟩)] [] 1 ⟨1, "a", 5⟩ (by decide),
   c9_delete_behaviour.2.2.2 [(1, ⟨1, "a", 5⟩)] 2 (by decide)⟩

/-- C10: the update body `{"name": null}` passes pydantic validation (an
`Optional` field may be set to `null`), the explicitly set `null` is
included in the merge, and `copy(update=...)` writes it into the stored
record without re-running the model's validators: the updated record lives
in the store with `name = None`, violating the declared `Product` schema. -/
theorem c10_null_bypasses_schema (st : ProductState) (pid : Nat) (now : String)
    (p' : Product) (st' : ProductState)
    (h : update_product st pid nullNameUpdate now = .ok (p', st')) :
    productUpdateValid nullNameUpdate = true ∧
    p'.name = none ∧ p'.schemaOk = false ∧ p' ∈ st'.db := by
  obtain ⟨hnext, hdb⟩ := update_product_ok h
  obtain ⟨l, p, r, h1, h2, h3, h4, h5, h6⟩ := update_db_ok hdb
  subst h5
  refine ⟨rfl, ?_, ?_, ?_⟩
  · simp [applyUpdate, nullNameUpdate]
  · simp [Product.schemaOk, applyUpdate, nullNameUpdate]
  · rw [h6]
    exact List.mem_append_right l (List.mem_cons_self _ _)

/-- The record of `demoState` with id 1 after the C10 witness update. -/
def demoP1null : Product := ⟨1, none, some "d", some 1, some "c", some 1, "t0", "t9"⟩

/-- `demoState` after the C10 witness update. -/
def demoStateNull : ProductState := ⟨[demoP1null, demoProduct2], 3⟩

/-- C10 witness: a concrete `{"name": null}` update stores a record whose
`name` is `None` and which fails the declared schema. -/
theorem c10_null_bypasses_schema_witness :
    update_product demoState 1 nullNameUpdate "t9" = Except.ok (demoP1null, demoStateNull) ∧
    (productUpdateValid nullNameUpdate = true ∧ demoP1null.name = none ∧
      demoP1null.schemaOk = false ∧ demoP1null ∈ demoStateNull.db) :=
  ⟨by decide, c10_null_bypasses_schema demoState 1 "t9" demoP1null demoStateNull (by decide)⟩

end Micro
